import Mathlib

/-!
Verification of the layer-contribution engine of the solc buildpack.

The data model and the rebuild pipeline are translated from
src/solc/solc.go.  The generic dependency-layer contributor (the
cache-hit / cache-miss decision and the metadata durability boundary)
lives in an external library and is modelled from the specification;
every such definition carries a doc comment saying so.

External effects (archive extraction, environment mutation, running
commands, writing the provenance file) are modelled by an oracle
`World` supplying each effect's outcome, and the pipeline records a
trace of the steps it performed.
-/

/-- Layer type flags, translated from libcnb.LayerTypes as used in
src/solc/solc.go (NewSolc). -/
structure LayerTypes where
  build : Bool
  cache : Bool
  launch : Bool
deriving DecidableEq, Repr

/-- The dependency descriptor.  Fields follow the metadata.dependencies
entry of src/buildpack.toml (id, name, version, uri, sha256,
strip-components). -/
structure BuildpackDependency where
  id : String
  name : String
  version : String
  uri : String
  sha256 : String
  stripComponents : Nat
deriving DecidableEq, Repr

/-- A build layer: a filesystem path, its type flags, and the
last-persisted descriptor (absent when never contributed). -/
structure Layer where
  path : String
  types : LayerTypes
  metadata : Option BuildpackDependency
deriving DecidableEq, Repr

/-- Modelled from the spec: the dependency cache collaborator is out of
scope; only its identity is kept. -/
structure DependencyCache where
  cachePath : String
  downloadPath : String
deriving DecidableEq, Repr

/-- The state NewDependencyLayerContributor keeps: the descriptor and
the layer types requested at construction. -/
structure DependencyLayerContributor where
  dependency : BuildpackDependency
  expectedTypes : LayerTypes
deriving DecidableEq, Repr

/-- Modelled from the spec: construction of the generic layer
contributor (the library constructor is not part of this repository's
sources); it records the descriptor and the requested layer types. -/
def NewDependencyLayerContributor (dependency : BuildpackDependency)
    (cache : DependencyCache) (types : LayerTypes) : DependencyLayerContributor :=
  { dependency := dependency, expectedTypes := types }

/-- The Solc contributor, from src/solc/solc.go.  The Logger and the
Executor fields are effects and are modelled by the World oracle. -/
structure Solc where
  layerContributor : DependencyLayerContributor
deriving DecidableEq, Repr

/-- NewSolc, translated from src/solc/solc.go lines 39-49: builds the
layer contributor with Build, Cache and Launch all true. -/
def NewSolc (dependency : BuildpackDependency) (cache : DependencyCache) : Solc :=
  { layerContributor :=
      NewDependencyLayerContributor dependency cache
        { build := true, cache := true, launch := true } }

/-- An external command invocation, from effect.Execution as built in
src/solc/solc.go: a command, its arguments, and the buffer each output
stream is wired to (the source wires Stdout and Stderr of one
invocation to a single bytes.Buffer). -/
structure Execution where
  command : String
  args : List String
  stdout : Nat
  stderr : Nat
deriving DecidableEq, Repr

deriving instance DecidableEq for Except

/-- Outcome of running an external command: the contents of the wired
buffer, and success or failure. -/
structure ExecOutcome where
  output : String
  result : Except String Unit
deriving DecidableEq, Repr

/-- Oracle for the external effects the rebuild pipeline performs. -/
structure World where
  extractResult : Except String Unit
  setenvResult : Except String Unit
  exec : Execution → ExecOutcome
  sbomWriteResult : Except String Unit

/-- A provenance file location, from sbom.SyftLocation. -/
structure SyftLocation where
  path : String
deriving DecidableEq, Repr

/-- A provenance component entry, from sbom.SyftArtifact as populated
in src/solc/solc.go lines 91-104. -/
structure SyftArtifact where
  id : String
  name : String
  version : String
  type : String
  foundBy : String
  locations : List SyftLocation
  licenses : List String
  cpes : List String
  purl : String
deriving DecidableEq, Repr

/-- A provenance record: the layer path it describes and its component
entries, from sbom.NewSyftDependency's arguments. -/
structure SyftDependency where
  layerPath : String
  artifacts : List SyftArtifact
deriving DecidableEq, Repr

/-- sbom.NewSyftDependency as called from src/solc/solc.go. -/
def NewSyftDependency (path : String) (artifacts : List SyftArtifact) : SyftDependency :=
  { layerPath := path, artifacts := artifacts }

/-- filepath.Join restricted to the clean, nonempty components the
source joins. -/
def filepathJoin (a b : String) : String :=
  if a = "" then b else if b = "" then a else a ++ "/" ++ b

/-- Modelled from the spec: the provenance file path is derived from
the layer (libcnb's Layer.SBOMPath is not part of this repository's
sources). -/
def sbomPath (layer : Layer) : String :=
  layer.path ++ ".sbom.syft.json"

/-- Whitespace test used by trimSpace. -/
def isSpaceChar (c : Char) : Bool :=
  c = ' ' || c = '\t' || c = '\n' || c = '\r' || c = '\x0b' || c = '\x0c'

/-- strings.TrimSpace: drop leading and trailing whitespace. -/
def trimSpace (s : String) : String :=
  ⟨((s.data.dropWhile isSpaceChar).reverse.dropWhile isSpaceChar).reverse⟩

/-- One observable step of the rebuild pipeline. -/
inductive Step where
  | extract (artifact : String) (dest : String) (strip : Nat)
  | setPath (bin : String)
  | run (execution : Execution) (output : String)
  | writeSBOM (path : String) (dep : SyftDependency)
deriving DecidableEq, Repr

/-- Result of the rebuild closure: the returned layer or error, and the
trace of steps performed. -/
structure RebuildResult where
  result : Except String Layer
  trace : List Step
deriving Repr

/-- The npm install invocation built in src/solc/solc.go lines 66-73:
command filepath.Join(bin, npm), both streams wired to one fresh
buffer (buffer 0). -/
def npmInstallExecution (layer : Layer) : Execution :=
  { command := filepathJoin (filepathJoin layer.path "bin") "npm"
    args := ["install", "solc", "-g"]
    stdout := 0
    stderr := 0 }

/-- The solcjs version query built in src/solc/solc.go lines 78-84:
both streams wired to one fresh buffer (buffer 1). -/
def solcjsVersionExecution : Execution :=
  { command := "solcjs"
    args := ["--version"]
    stdout := 1
    stderr := 1 }

/-- The single provenance component entry built in src/solc/solc.go
lines 92-104, parametrised by the discovered version string. -/
def solcSBOMArtifact (version : String) : SyftArtifact :=
  { id := "solc"
    name := "Solc"
    version := version
    type := "UnknownPackage"
    foundBy := "amp-buildpacks/solc"
    locations := [{ path := "amp-buildpacks/solc/solc/solc.go" }]
    licenses := ["Apache-2.0"]
    cpes := ["cpe:2.3:a:solc:solc:" ++ version ++ ":*:*:*:*:*:*:*"]
    purl := "pkg:generic/solc@" ++ version }

/-- The rebuild closure passed to the layer contributor, translated
step by step from src/solc/solc.go lines 53-110: extract with strip
count 1, put bin on PATH, npm install solc -g, solcjs --version, trim
the reported version, build the provenance entry, write it. -/
def solcRebuild (w : World) (artifactName : String) (layer : Layer) : RebuildResult :=
  let bin := filepathJoin layer.path "bin"
  match w.extractResult with
  | .error err =>
      { result := .error ("unable to expand " ++ artifactName ++ "\n" ++ err)
        trace := [] }
  | .ok _ =>
  let t1 := [Step.extract artifactName layer.path 1]
  match w.setenvResult with
  | .error err =>
      { result := .error ("unable to set $PATH\n" ++ err), trace := t1 }
  | .ok _ =>
  let t2 := t1 ++ [Step.setPath bin]
  let npmEx := npmInstallExecution layer
  let npmOut := w.exec npmEx
  let t3 := t2 ++ [Step.run npmEx npmOut.output]
  match npmOut.result with
  | .error err =>
      { result := .error ("error executing \x27" ++ npmEx.command ++
          "\x27:\n Combined Output: " ++ npmOut.output ++ ": \n" ++ err)
        trace := t3 }
  | .ok _ =>
  let verOut := w.exec solcjsVersionExecution
  let t4 := t3 ++ [Step.run solcjsVersionExecution verOut.output]
  match verOut.result with
  | .error err =>
      { result := .error ("error executing \x27solcjs --version\x27:\n Combined Output: " ++
          verOut.output ++ ": \n" ++ err)
        trace := t4 }
  | .ok _ =>
  let version := trimSpace verOut.output
  let dep := NewSyftDependency layer.path [solcSBOMArtifact version]
  match w.sbomWriteResult with
  | .error err =>
      { result := .error ("unable to write SBOM\n" ++ err), trace := t4 }
  | .ok _ =>
      { result := .ok layer, trace := t4 ++ [Step.writeSBOM (sbomPath layer) dep] }

/-- Modelled from the spec: the cache key is the descriptor's checksum. -/
def cacheKey (d : BuildpackDependency) : String := d.sha256

/-- Modelled from the spec: a cache hit is stored metadata whose cache
key equals the new descriptor's cache key. -/
def isCacheHit (c : DependencyLayerContributor) (layer : Layer) : Bool :=
  match layer.metadata with
  | some m => cacheKey m == cacheKey c.dependency
  | none => false

/-- Result of a whole contribution: the returned layer or error, the
trace of rebuild steps, and how many times the rebuild closure ran. -/
structure ContributeResult where
  result : Except String Layer
  trace : List Step
  rebuilds : Nat
deriving Repr

/-- Modelled from the spec: the generic layer contributor (the
library's DependencyLayerContributor.Contribute is not part of this
repository's sources).  On a cache hit it returns the layer unchanged
without invoking the rebuild closure; on a miss it invokes the rebuild
closure once and, only on success, persists the new descriptor as the
layer's metadata and applies the expected layer types. -/
def DependencyLayerContributor.contribute (c : DependencyLayerContributor)
    (layer : Layer) (rebuild : String → Layer → RebuildResult)
    (artifactName : String) : ContributeResult :=
  if isCacheHit c layer then
    { result := .ok layer, trace := [], rebuilds := 0 }
  else
    let r := rebuild artifactName layer
    match r.result with
    | .ok l =>
        { result := .ok { l with metadata := some c.dependency, types := c.expectedTypes }
          trace := r.trace
          rebuilds := 1 }
    | .error e =>
        { result := .error e, trace := r.trace, rebuilds := 1 }

/-- Solc.Contribute from src/solc/solc.go lines 51-111: delegate to the
layer contributor with the solc rebuild closure. -/
def Solc.Contribute (r : Solc) (w : World) (artifactName : String)
    (layer : Layer) : ContributeResult :=
  r.layerContributor.contribute layer (solcRebuild w) artifactName

/-- Modelled from the spec: the metadata durably persisted by a
contribution call.  A failed rebuild leaves the stored metadata as it
was; a successful one stores what the returned layer carries. -/
def persistedMetadata (layer : Layer) (result : Except String Layer) :
    Option BuildpackDependency :=
  match result with
  | .ok l => l.metadata
  | .error _ => layer.metadata

/-- A launch process, from libcnb.Process as used in
src/solc/solc.go. -/
structure Process where
  type : String
  command : String
  default : Bool
deriving DecidableEq, Repr

/-- Solc.BuildProcessTypes from src/solc/solc.go lines 113-124.  The Go
function returns a slice and an always-nil error; the error is modelled
as an Option String that is none when nil. -/
def Solc.BuildProcessTypes (r : Solc) (enableProcess : String) :
    List Process × Option String :=
  let processes : List Process := []
  if enableProcess = "true" then
    (processes ++ [{ type := "web", command := "npm start", default := true }], none)
  else
    (processes, none)

/-- The executions recorded in a trace. -/
def runExecutions (trace : List Step) : List Execution :=
  trace.filterMap fun s =>
    match s with
    | .run ex _ => some ex
    | _ => none

/-- The message carried by a failed result (empty on success). -/
def errMsg : Except String Layer → String
  | .error e => e
  | .ok _ => ""

/-- Classify a pipeline error message by its first eleven characters;
each failure kind of the pipeline starts with a distinct prefix. -/
def classifyError (msg : String) : String :=
  if msg.data.take 11 = "unable to e".data then "ExtractionFailed"
  else if msg.data.take 11 = "unable to s".data then "EnvironmentUpdateFailed"
  else if msg.data.take 11 = "error execu".data then "SetupActionFailed"
  else if msg.data.take 11 = "unable to w".data then "ProvenanceWriteFailed"
  else "Unknown"

/-- The node dependency descriptor of src/buildpack.toml. -/
def nodeDependency : BuildpackDependency :=
  { id := "node"
    name := "Node Engine"
    version := "20.10.0"
    uri := "https://nodejs.org/dist/v20.10.0/node-v20.10.0-linux-x64.tar.xz"
    sha256 := "3fe4ec5d70c8b4ffc1461dec83ab23fc70124e137c4cbbe1ccc9d6ae6ec04a7d"
    stripComponents := 1 }

def exampleCache : DependencyCache :=
  { cachePath := "/cache", downloadPath := "/download" }

def exampleSolc : Solc := NewSolc nodeDependency exampleCache

/-- A layer never contributed to. -/
def emptyLayer : Layer :=
  { path := "/layers/solc"
    types := { build := false, cache := false, launch := false }
    metadata := none }

/-- A layer whose stored metadata matches the node descriptor. -/
def hitLayer : Layer :=
  { path := "/layers/solc"
    types := { build := true, cache := true, launch := true }
    metadata := some nodeDependency }

/-- A world where every effect succeeds and solcjs reports 0.8.20. -/
def wAllOk : World :=
  { extractResult := .ok ()
    setenvResult := .ok ()
    exec := fun ex =>
      if ex.command = "solcjs" then { output := "0.8.20\n", result := .ok () }
      else { output := "", result := .ok () }
    sbomWriteResult := .ok () }

/-- A descriptor identical to the node one except that it declares two
leading path components to strip. -/
def strip2Dependency : BuildpackDependency :=
  { nodeDependency with stripComponents := 2 }

theorem contribute_none_error (r : Solc) (w : World) (a : String) (layer : Layer)
    (hm : layer.metadata = none) (e : String)
    (he : (solcRebuild w a layer).result = .error e) :
    r.Contribute w a layer =
      { result := .error e, trace := (solcRebuild w a layer).trace, rebuilds := 1 } := by
  simp [Solc.Contribute, DependencyLayerContributor.contribute, isCacheHit, hm, he]

theorem contribute_none_ok (r : Solc) (w : World) (a : String) (layer : Layer)
    (hm : layer.metadata = none) (l : Layer)
    (hl : (solcRebuild w a layer).result = .ok l) :
    r.Contribute w a layer =
      { result := .ok { l with metadata := some r.layerContributor.dependency,
                               types := r.layerContributor.expectedTypes }
        trace := (solcRebuild w a layer).trace
        rebuilds := 1 } := by
  simp [Solc.Contribute, DependencyLayerContributor.contribute, isCacheHit, hm, hl]

theorem solcRebuild_extract_error (w : World) (a : String) (layer : Layer) (e : String)
    (hE : w.extractResult = .error e) :
    solcRebuild w a layer =
      { result := .error ("unable to expand " ++ a ++ "\n" ++ e), trace := [] } := by
  simp [solcRebuild, hE]

theorem solcRebuild_setenv_error (w : World) (a : String) (layer : Layer) (e : String)
    (hE : w.extractResult = .ok ()) (hS : w.setenvResult = .error e) :
    solcRebuild w a layer =
      { result := .error ("unable to set $PATH\n" ++ e)
        trace := [Step.extract a layer.path 1] } := by
  simp [solcRebuild, hE, hS]

theorem solcRebuild_npm_error (w : World) (a : String) (layer : Layer) (e : String)
    (hE : w.extractResult = .ok ()) (hS : w.setenvResult = .ok ())
    (hN : (w.exec (npmInstallExecution layer)).result = .error e) :
    solcRebuild w a layer =
      { result := .error ("error executing \x27" ++ (npmInstallExecution layer).command ++
          "\x27:\n Combined Output: " ++ (w.exec (npmInstallExecution layer)).output ++
          ": \n" ++ e)
        trace := [Step.extract a layer.path 1,
          Step.setPath (filepathJoin layer.path "bin"),
          Step.run (npmInstallExecution layer) (w.exec (npmInstallExecution layer)).output] } := by
  simp [solcRebuild, hE, hS, hN]

theorem solcRebuild_solcjs_error (w : World) (a : String) (layer : Layer) (e : String)
    (hE : w.extractResult = .ok ()) (hS : w.setenvResult = .ok ())
    (hN : (w.exec (npmInstallExecution layer)).result = .ok ())
    (hV : (w.exec solcjsVersionExecution).result = .error e) :
    solcRebuild w a layer =
      { result := .error ("error executing \x27solcjs --version\x27:\n Combined Output: " ++
          (w.exec solcjsVersionExecution).output ++ ": \n" ++ e)
        trace := [Step.extract a layer.path 1,
          Step.setPath (filepathJoin layer.path "bin"),
          Step.run (npmInstallExecution layer) (w.exec (npmInstallExecution layer)).output,
          Step.run solcjsVersionExecution (w.exec solcjsVersionExecution).output] } := by
  simp [solcRebuild, hE, hS, hN, hV]

theorem solcRebuild_sbom_error (w : World) (a : String) (layer : Layer) (e : String)
    (hE : w.extractResult = .ok ()) (hS : w.setenvResult = .ok ())
    (hN : (w.exec (npmInstallExecution layer)).result = .ok ())
    (hV : (w.exec solcjsVersionExecution).result = .ok ())
    (hB : w.sbomWriteResult = .error e) :
    solcRebuild w a layer =
      { result := .error ("unable to write SBOM\n" ++ e)
        trace := [Step.extract a layer.path 1,
          Step.setPath (filepathJoin layer.path "bin"),
          Step.run (npmInstallExecution layer) (w.exec (npmInstallExecution layer)).output,
          Step.run solcjsVersionExecution (w.exec solcjsVersionExecution).output] } := by
  simp [solcRebuild, hE, hS, hN, hV, hB]

theorem solcRebuild_all_ok (w : World) (a : String) (layer : Layer)
    (hE : w.extractResult = .ok ()) (hS : w.setenvResult = .ok ())
    (hN : (w.exec (npmInstallExecution layer)).result = .ok ())
    (hV : (w.exec solcjsVersionExecution).result = .ok ())
    (hB : w.sbomWriteResult = .ok ()) :
    solcRebuild w a layer =
      { result := .ok layer
        trace := [Step.extract a layer.path 1,
          Step.setPath (filepathJoin layer.path "bin"),
          Step.run (npmInstallExecution layer) (w.exec (npmInstallExecution layer)).output,
          Step.run solcjsVersionExecution (w.exec solcjsVersionExecution).output,
          Step.writeSBOM (sbomPath layer)
            (NewSyftDependency layer.path
              [solcSBOMArtifact (trimSpace (w.exec solcjsVersionExecution).output)])] } := by
  simp [solcRebuild, hE, hS, hN, hV, hB]

/-- C9: NewSolc always constructs the layer contributor with all three
layer-type flags (build, cache, launch) set to true, for every
dependency descriptor and cache it is given. -/
theorem newSolc_layer_types (d : BuildpackDependency) (c : DependencyCache) :
    (NewSolc d c).layerContributor.expectedTypes =
      { build := true, cache := true, launch := true } := rfl

/-- C5: BuildProcessTypes applied to the string true returns exactly one
process definition, marked default, with fixed type web and command
npm start; applied to any other string it returns the empty list; in
both cases the returned error is nil. -/
theorem buildProcessTypes_flag_mapping (r : Solc) (s : String) :
    (s = "true" → r.BuildProcessTypes s =
      ([{ type := "web", command := "npm start", default := true }], none))
    ∧ (s ≠ "true" → r.BuildProcessTypes s = ([], none)) := by
  constructor
  · intro h
    simp [Solc.BuildProcessTypes, h]
  · intro h
    simp [Solc.BuildProcessTypes, h]

/-- Witness for C5 at the flag values true, false, the empty string and
an arbitrary other value. -/
theorem buildProcessTypes_flag_mapping_witness :
    exampleSolc.BuildProcessTypes "true" =
      ([{ type := "web", command := "npm start", default := true }], none)
    ∧ exampleSolc.BuildProcessTypes "false" = ([], none)
    ∧ exampleSolc.BuildProcessTypes "" = ([], none)
    ∧ exampleSolc.BuildProcessTypes "TRUE" = ([], none) :=
  ⟨(buildProcessTypes_flag_mapping exampleSolc "true").1 rfl,
   (buildProcessTypes_flag_mapping exampleSolc "false").2 (by decide),
   (buildProcessTypes_flag_mapping exampleSolc "").2 (by decide),
   (buildProcessTypes_flag_mapping exampleSolc "TRUE").2 (by decide)⟩

/-- C8: for every input string, the process list BuildProcessTypes
returns contains at most one element marked default. -/
theorem buildProcessTypes_at_most_one_default (r : Solc) (s : String) :
    ((r.BuildProcessTypes s).1.countP fun p => p.default) ≤ 1 := by
  by_cases h : s = "true" <;> simp [Solc.BuildProcessTypes, h]

/-- C10: BuildProcessTypes never fails: for every input string the
error component of its result is none (the nil error). -/
theorem buildProcessTypes_no_error (r : Solc) (s : String) :
    (r.BuildProcessTypes s).2 = none := by
  by_cases h : s = "true" <;> simp [Solc.BuildProcessTypes, h]

/-- C1: when stored metadata is present and its cache key (the
descriptor's checksum) equals the new descriptor's key, Contribute
returns the layer unchanged and the rebuild closure is not invoked
(zero rebuilds, empty trace); when metadata is absent or the key
differs, the rebuild pipeline runs exactly once and the contribution's
trace is exactly the pipeline's trace. -/
theorem contribute_cache_hit_and_miss (r : Solc) (w : World) (a : String) (layer : Layer) :
    (∀ m, layer.metadata = some m →
      cacheKey m = cacheKey r.layerContributor.dependency →
      r.Contribute w a layer = { result := .ok layer, trace := [], rebuilds := 0 })
    ∧ ((layer.metadata = none ∨
        ∃ m, layer.metadata = some m ∧ cacheKey m ≠ cacheKey r.layerContributor.dependency) →
      (r.Contribute w a layer).rebuilds = 1 ∧
      (r.Contribute w a layer).trace = (solcRebuild w a layer).trace) := by
  constructor
  · intro m hm hk
    simp [Solc.Contribute, DependencyLayerContributor.contribute, isCacheHit, hm, hk]
  · intro h
    have hhit : isCacheHit r.layerContributor layer = false := by
      rcases h with h | ⟨m, hm, hk⟩
      · simp [isCacheHit, h]
      · simp [isCacheHit, hm, hk]
    cases hres : (solcRebuild w a layer).result <;>
      simp [Solc.Contribute, DependencyLayerContributor.contribute, hhit, hres]

/-- Witness for C1: a matching layer is returned unchanged with zero
rebuilds, and a never-contributed layer triggers exactly one rebuild. -/
theorem contribute_cache_hit_and_miss_witness :
    exampleSolc.Contribute wAllOk "node.tar.xz" hitLayer =
      { result := .ok hitLayer, trace := [], rebuilds := 0 }
    ∧ (exampleSolc.Contribute wAllOk "node.tar.xz" emptyLayer).rebuilds = 1 :=
  ⟨(contribute_cache_hit_and_miss exampleSolc wAllOk "node.tar.xz" hitLayer).1
      nodeDependency rfl rfl,
   ((contribute_cache_hit_and_miss exampleSolc wAllOk "node.tar.xz" emptyLayer).2
      (Or.inl rfl)).1⟩

/-- Counterexample to C2 as stated: with a descriptor declaring
stripComponents = 2, the rebuild still extracts discarding exactly one
leading path segment (the source hardcodes the strip count 1), not the
descriptor's two. -/
theorem contribute_strip_components_counterexample :
    ((NewSolc strip2Dependency exampleCache).Contribute wAllOk "node.tar.xz" emptyLayer).trace.head?
      = some (Step.extract "node.tar.xz" emptyLayer.path 1)
    ∧ strip2Dependency.stripComponents ≠ 1 := by decide

/-- C2 amended: during a rebuild, Contribute extracts the fetched
artifact into layer.path discarding exactly one leading path segment (a
constant in the code, which coincides with the shipped descriptor's
strip-components value of 1 but is not read from the descriptor); if
extraction fails the rebuild returns an error and no later step runs
(the trace is empty). -/
theorem contribute_extract_strips_one (r : Solc) (w : World) (a : String) (layer : Layer)
    (hm : layer.metadata = none) :
    (w.extractResult = .ok () →
      (r.Contribute w a layer).trace.head? = some (Step.extract a layer.path 1))
    ∧ (∀ e, w.extractResult = .error e →
      r.Contribute w a layer =
        { result := .error ("unable to expand " ++ a ++ "\n" ++ e)
          trace := [], rebuilds := 1 }) := by
  constructor
  · intro hE
    rcases hS : w.setenvResult with eS | uS
    · rw [contribute_none_error r w a layer hm _
          (by rw [solcRebuild_setenv_error w a layer eS hE hS]),
        solcRebuild_setenv_error w a layer eS hE hS]
      rfl
    · cases uS
      rcases hN : (w.exec (npmInstallExecution layer)).result with eN | uN
      · rw [contribute_none_error r w a layer hm _
            (by rw [solcRebuild_npm_error w a layer eN hE hS hN]),
          solcRebuild_npm_error w a layer eN hE hS hN]
        rfl
      · cases uN
        rcases hV : (w.exec solcjsVersionExecution).result with eV | uV
        · rw [contribute_none_error r w a layer hm _
              (by rw [solcRebuild_solcjs_error w a layer eV hE hS hN hV]),
            solcRebuild_solcjs_error w a layer eV hE hS hN hV]
          rfl
        · cases uV
          rcases hB : w.sbomWriteResult with eB | uB
          · rw [contribute_none_error r w a layer hm _
                (by rw [solcRebuild_sbom_error w a layer eB hE hS hN hV hB]),
              solcRebuild_sbom_error w a layer eB hE hS hN hV hB]
            rfl
          · cases uB
            rw [contribute_none_ok r w a layer hm _
                (by rw [solcRebuild_all_ok w a layer hE hS hN hV hB]),
              solcRebuild_all_ok w a layer hE hS hN hV hB]
            rfl
  · intro e hE
    rw [contribute_none_error r w a layer hm _
        (by rw [solcRebuild_extract_error w a layer e hE]),
      solcRebuild_extract_error w a layer e hE]

/-- Witness for C2 amended: on a fresh layer with successful
extraction, the first recorded step strips exactly one segment; with a
failing extraction the contribution aborts with the expansion error and
an empty trace. -/
theorem contribute_extract_strips_one_witness :
    (exampleSolc.Contribute wAllOk "node.tar.xz" emptyLayer).trace.head? =
      some (Step.extract "node.tar.xz" emptyLayer.path 1)
    ∧ ({ wAllOk with extractResult := .error "unexpected EOF" } : World).extractResult =
        .error "unexpected EOF"
    ∧ exampleSolc.Contribute { wAllOk with extractResult := .error "unexpected EOF" }
        "node.tar.xz" emptyLayer =
      { result := .error ("unable to expand " ++ "node.tar.xz" ++ "\n" ++ "unexpected EOF")
        trace := [], rebuilds := 1 } :=
  ⟨(contribute_extract_strips_one exampleSolc wAllOk "node.tar.xz" emptyLayer rfl).1 rfl,
   rfl,
   (contribute_extract_strips_one exampleSolc
      { wAllOk with extractResult := .error "unexpected EOF" }
      "node.tar.xz" emptyLayer rfl).2 "unexpected EOF" rfl⟩

theorem contribute_error_conclusions (r : Solc) (w : World) (a : String) (layer : Layer)
    (msg : String) (tr : List Step)
    (hC : r.Contribute w a layer = { result := .error msg, trace := tr, rebuilds := 1 })
    (hno : ∀ p d, Step.writeSBOM p d ∉ tr) :
    (∃ m, (r.Contribute w a layer).result = .error m)
    ∧ (∀ p d, Step.writeSBOM p d ∉ (r.Contribute w a layer).trace)
    ∧ persistedMetadata layer (r.Contribute w a layer).result = layer.metadata := by
  rw [hC]
  exact ⟨⟨msg, rfl⟩, hno, rfl⟩

/-- C3: whenever the npm install invocation or the solcjs version query
reports failure, the contribution returns an error, no provenance
record is written (no writeSBOM step in the trace), and the persisted
metadata after the call equals the metadata before the call. -/
theorem setup_failure_atomicity (r : Solc) (w : World) (a : String) (layer : Layer) (e : String)
    (hm : layer.metadata = none)
    (hfail : (w.exec (npmInstallExecution layer)).result = .error e ∨
             (w.exec solcjsVersionExecution).result = .error e) :
    (∃ msg, (r.Contribute w a layer).result = .error msg)
    ∧ (∀ p d, Step.writeSBOM p d ∉ (r.Contribute w a layer).trace)
    ∧ persistedMetadata layer (r.Contribute w a layer).result = layer.metadata := by
  rcases hE : w.extractResult with eE | uE
  · exact contribute_error_conclusions r w a layer
      ("unable to expand " ++ a ++ "\n" ++ eE) []
      (by rw [contribute_none_error r w a layer hm _
            (by rw [solcRebuild_extract_error w a layer eE hE]),
          solcRebuild_extract_error w a layer eE hE])
      (fun p d => by simp)
  · cases uE
    rcases hS : w.setenvResult with eS | uS
    · exact contribute_error_conclusions r w a layer
        ("unable to set $PATH\n" ++ eS) [Step.extract a layer.path 1]
        (by rw [contribute_none_error r w a layer hm _
              (by rw [solcRebuild_setenv_error w a layer eS hE hS]),
            solcRebuild_setenv_error w a layer eS hE hS])
        (fun p d => by simp)
    · cases uS
      rcases hN : (w.exec (npmInstallExecution layer)).result with eN | uN
      · exact contribute_error_conclusions r w a layer
          ("error executing \x27" ++ (npmInstallExecution layer).command ++
            "\x27:\n Combined Output: " ++ (w.exec (npmInstallExecution layer)).output ++
            ": \n" ++ eN)
          [Step.extract a layer.path 1,
            Step.setPath (filepathJoin layer.path "bin"),
            Step.run (npmInstallExecution layer) (w.exec (npmInstallExecution layer)).output]
          (by rw [contribute_none_error r w a layer hm _
                (by rw [solcRebuild_npm_error w a layer eN hE hS hN]),
              solcRebuild_npm_error w a layer eN hE hS hN])
          (fun p d => by simp)
      · cases uN
        rcases hV : (w.exec solcjsVersionExecution).result with eV | uV
        · exact contribute_error_conclusions r w a layer
            ("error executing \x27solcjs --version\x27:\n Combined Output: " ++
              (w.exec solcjsVersionExecution).output ++ ": \n" ++ eV)
            [Step.extract a layer.path 1,
              Step.setPath (filepathJoin layer.path "bin"),
              Step.run (npmInstallExecution layer) (w.exec (npmInstallExecution layer)).output,
              Step.run solcjsVersionExecution (w.exec solcjsVersionExecution).output]
            (by rw [contribute_none_error r w a layer hm _
                  (by rw [solcRebuild_solcjs_error w a layer eV hE hS hN hV]),
                solcRebuild_solcjs_error w a layer eV hE hS hN hV])
            (fun p d => by simp)
        · cases uV
          rcases hfail with hf | hf
          · rw [hf] at hN
            simp at hN
          · rw [hf] at hV
            simp at hV

/-- A world where the npm install invocation fails and every other
effect succeeds. -/
def wNpmFail : World :=
  { extractResult := .ok ()
    setenvResult := .ok ()
    exec := fun ex =>
      if ex.command = "solcjs" then { output := "0.8.20\n", result := .ok () }
      else { output := "npm ERR! network failure", result := .error "exit status 1" }
    sbomWriteResult := .ok () }

/-- Witness for C3: a failing npm install aborts the contribution with
an error, writes no provenance step, and leaves the stored metadata
unchanged. -/
theorem setup_failure_atomicity_witness :
    (wNpmFail.exec (npmInstallExecution emptyLayer)).result = .error "exit status 1"
    ∧ ((∃ msg, (exampleSolc.Contribute wNpmFail "node.tar.xz" emptyLayer).result = .error msg)
       ∧ (∀ p d, Step.writeSBOM p d ∉ (exampleSolc.Contribute wNpmFail "node.tar.xz" emptyLayer).trace)
       ∧ persistedMetadata emptyLayer
           (exampleSolc.Contribute wNpmFail "node.tar.xz" emptyLayer).result =
         emptyLayer.metadata) :=
  ⟨by decide,
   setup_failure_atomicity exampleSolc wNpmFail "node.tar.xz" emptyLayer "exit status 1"
     rfl (Or.inl (by decide))⟩

/-- C4: on a successful rebuild the provenance record written as the
final step carries, as its version and inside its CPE and package-URL
identifiers, the whitespace-trimmed output of the solcjs version query,
independently of the descriptor held by the contributor. -/
theorem sbom_version_from_solcjs (r : Solc) (w : World) (a : String) (layer : Layer)
    (hm : layer.metadata = none)
    (hE : w.extractResult = .ok ()) (hS : w.setenvResult = .ok ())
    (hN : (w.exec (npmInstallExecution layer)).result = .ok ())
    (hV : (w.exec solcjsVersionExecution).result = .ok ())
    (hB : w.sbomWriteResult = .ok ()) :
    (r.Contribute w a layer).trace.getLast? =
      some (Step.writeSBOM (sbomPath layer)
        (NewSyftDependency layer.path
          [solcSBOMArtifact (trimSpace (w.exec solcjsVersionExecution).output)]))
    ∧ (solcSBOMArtifact (trimSpace (w.exec solcjsVersionExecution).output)).version =
        trimSpace (w.exec solcjsVersionExecution).output
    ∧ (solcSBOMArtifact (trimSpace (w.exec solcjsVersionExecution).output)).cpes =
        ["cpe:2.3:a:solc:solc:" ++ trimSpace (w.exec solcjsVersionExecution).output ++
          ":*:*:*:*:*:*:*"]
    ∧ (solcSBOMArtifact (trimSpace (w.exec solcjsVersionExecution).output)).purl =
        "pkg:generic/solc@" ++ trimSpace (w.exec solcjsVersionExecution).output := by
  refine ⟨?_, rfl, rfl, rfl⟩
  rw [contribute_none_ok r w a layer hm layer
      (by rw [solcRebuild_all_ok w a layer hE hS hN hV hB]),
    solcRebuild_all_ok w a layer hE hS hN hV hB]
  rfl

/-- Witness for C4: the solcjs query reports 0.8.20 while the
descriptor's nominal version is 20.10.0; the provenance entry carries
0.8.20. -/
theorem sbom_version_from_solcjs_witness :
    ((exampleSolc.Contribute wAllOk "node.tar.xz" emptyLayer).trace.getLast? =
      some (Step.writeSBOM (sbomPath emptyLayer)
        (NewSyftDependency emptyLayer.path
          [solcSBOMArtifact (trimSpace (wAllOk.exec solcjsVersionExecution).output)])))
    ∧ (solcSBOMArtifact (trimSpace (wAllOk.exec solcjsVersionExecution).output)).version =
        trimSpace (wAllOk.exec solcjsVersionExecution).output
    ∧ trimSpace (wAllOk.exec solcjsVersionExecution).output = "0.8.20"
    ∧ trimSpace (wAllOk.exec solcjsVersionExecution).output ≠
        exampleSolc.layerContributor.dependency.version :=
  have h := sbom_version_from_solcjs exampleSolc wAllOk "node.tar.xz" emptyLayer
    rfl rfl rfl (by decide) (by decide) rfl
  ⟨h.1, h.2.1, by decide, by decide⟩

/-- A world where only the provenance write fails. -/
def wSbomFail : World :=
  { wAllOk with sbomWriteResult := .error "permission denied" }

/-- C6: when writing the provenance record fails, the contribution
returns the SBOM write error, no provenance step is recorded, and the
persisted metadata is unchanged, so no layer is recorded as contributed
without its provenance file. -/
theorem sbom_write_failure_aborts (r : Solc) (w : World) (a : String) (layer : Layer) (e : String)
    (hm : layer.metadata = none)
    (hE : w.extractResult = .ok ()) (hS : w.setenvResult = .ok ())
    (hN : (w.exec (npmInstallExecution layer)).result = .ok ())
    (hV : (w.exec solcjsVersionExecution).result = .ok ())
    (hB : w.sbomWriteResult = .error e) :
    (r.Contribute w a layer).result = .error ("unable to write SBOM\n" ++ e)
    ∧ (∀ p d, Step.writeSBOM p d ∉ (r.Contribute w a layer).trace)
    ∧ persistedMetadata layer (r.Contribute w a layer).result = layer.metadata := by
  have hC : r.Contribute w a layer =
      { result := .error ("unable to write SBOM\n" ++ e)
        trace := [Step.extract a layer.path 1,
          Step.setPath (filepathJoin layer.path "bin"),
          Step.run (npmInstallExecution layer) (w.exec (npmInstallExecution layer)).output,
          Step.run solcjsVersionExecution (w.exec solcjsVersionExecution).output]
        rebuilds := 1 } := by
    rw [contribute_none_error r w a layer hm ("unable to write SBOM\n" ++ e)
        (by rw [solcRebuild_sbom_error w a layer e hE hS hN hV hB]),
      solcRebuild_sbom_error w a layer e hE hS hN hV hB]
  rw [hC]
  exact ⟨rfl, fun p d => by simp, rfl⟩

/-- Witness for C6: a failing SBOM write aborts the contribution and
leaves the stored metadata unchanged. -/
theorem sbom_write_failure_aborts_witness :
    (exampleSolc.Contribute wSbomFail "node.tar.xz" emptyLayer).result =
      .error ("unable to write SBOM\n" ++ "permission denied")
    ∧ persistedMetadata emptyLayer
        (exampleSolc.Contribute wSbomFail "node.tar.xz" emptyLayer).result =
      emptyLayer.metadata :=
  have h := sbom_write_failure_aborts exampleSolc wSbomFail "node.tar.xz" emptyLayer
    "permission denied" rfl rfl rfl (by decide) (by decide) rfl
  ⟨h.1, h.2.2⟩

theorem take_eleven_append (s t : String) (h : 11 ≤ s.data.length) :
    (s ++ t).data.take 11 = s.data.take 11 := by
  rw [String.data_append]
  exact List.take_append_of_le_length h

theorem eleven_le_append_length (s t : String) (h : 11 ≤ s.data.length) :
    11 ≤ (s ++ t).data.length := by
  rw [String.data_append, List.length_append]
  exact le_trans h (Nat.le_add_right _ _)

theorem classifyError_expand (a e : String) :
    classifyError ("unable to expand " ++ a ++ "\n" ++ e) = "ExtractionFailed" := by
  have h : ("unable to expand " ++ a ++ "\n" ++ e).data.take 11 = "unable to e".data := by
    rw [take_eleven_append, take_eleven_append, take_eleven_append]
    · decide
    · decide
    · exact eleven_le_append_length _ _ (by decide)
    · exact eleven_le_append_length _ _ (eleven_le_append_length _ _ (by decide))
  unfold classifyError
  rw [h]
  decide

theorem classifyError_setenv (e : String) :
    classifyError ("unable to set $PATH\n" ++ e) = "EnvironmentUpdateFailed" := by
  have h : ("unable to set $PATH\n" ++ e).data.take 11 = "unable to s".data := by
    rw [take_eleven_append]
    · decide
    · decide
  unfold classifyError
  rw [h]
  decide

theorem classifyError_exec (cmd out e : String) :
    classifyError ("error executing \x27" ++ cmd ++ "\x27:\n Combined Output: " ++
      out ++ ": \n" ++ e) = "SetupActionFailed" := by
  have h : ("error executing \x27" ++ cmd ++ "\x27:\n Combined Output: " ++
      out ++ ": \n" ++ e).data.take 11 = "error execu".data := by
    rw [take_eleven_append, take_eleven_append, take_eleven_append, take_eleven_append,
      take_eleven_append]
    · decide
    · decide
    · exact eleven_le_append_length _ _ (by decide)
    · exact eleven_le_append_length _ _ (eleven_le_append_length _ _ (by decide))
    · exact eleven_le_append_length _ _
        (eleven_le_append_length _ _ (eleven_le_append_length _ _ (by decide)))
    · exact eleven_le_append_length _ _ (eleven_le_append_length _ _
        (eleven_le_append_length _ _ (eleven_le_append_length _ _ (by decide))))
  unfold classifyError
  rw [h]
  decide

theorem classifyError_exec_solcjs (out e : String) :
    classifyError ("error executing \x27solcjs --version\x27:\n Combined Output: " ++
      out ++ ": \n" ++ e) = "SetupActionFailed" := by
  have h : ("error executing \x27solcjs --version\x27:\n Combined Output: " ++
      out ++ ": \n" ++ e).data.take 11 = "error execu".data := by
    rw [take_eleven_append, take_eleven_append, take_eleven_append]
    · decide
    · decide
    · exact eleven_le_append_length _ _ (by decide)
    · exact eleven_le_append_length _ _ (eleven_le_append_length _ _ (by decide))
  unfold classifyError
  rw [h]
  decide

theorem classifyError_sbom (e : String) :
    classifyError ("unable to write SBOM\n" ++ e) = "ProvenanceWriteFailed" := by
  have h : ("unable to write SBOM\n" ++ e).data.take 11 = "unable to w".data := by
    rw [take_eleven_append]
    · decide
    · decide
  unfold classifyError
  rw [h]
  decide

theorem errMsg_error (e : String) : errMsg (.error e) = e := rfl

theorem exec_message_props (cmd out e : String) :
    List.IsInfix out.data
      ("error executing \x27" ++ cmd ++ "\x27:\n Combined Output: " ++ out ++ ": \n" ++ e).data
    ∧ List.IsInfix cmd.data
      ("error executing \x27" ++ cmd ++ "\x27:\n Combined Output: " ++ out ++ ": \n" ++ e).data := by
  constructor
  · exact ⟨("error executing \x27" ++ cmd ++ "\x27:\n Combined Output: ").data,
      (": \n" ++ e).data, by simp [List.append_assoc]⟩
  · exact ⟨("error executing \x27" : String).data,
      ("\x27:\n Combined Output: " ++ out ++ ": \n" ++ e).data, by simp [List.append_assoc]⟩

theorem solcjs_message_props (out e : String) :
    List.IsInfix out.data
      ("error executing \x27solcjs --version\x27:\n Combined Output: " ++ out ++ ": \n" ++ e).data
    ∧ List.IsInfix ("solcjs" : String).data
      ("error executing \x27solcjs --version\x27:\n Combined Output: " ++ out ++ ": \n" ++ e).data := by
  have hsplit : ("error executing \x27solcjs --version\x27:\n Combined Output: " : String).data =
      ("error executing \x27" : String).data ++ ("solcjs" : String).data ++
        (" --version\x27:\n Combined Output: " : String).data := by decide
  constructor
  · exact ⟨("error executing \x27solcjs --version\x27:\n Combined Output: " : String).data,
      (": \n" ++ e).data, by simp [List.append_assoc]⟩
  · exact ⟨("error executing \x27" : String).data,
      (" --version\x27:\n Combined Output: " : String).data ++ out.data ++
        (": \n" : String).data ++ e.data,
      by simp [hsplit, List.append_assoc]⟩

/-- C7: every recorded command invocation wires standard output and
standard error to the same buffer; a failing npm install or solcjs
query yields exactly the source's error message, which contains the
captured combined output and the failing command's name as substrings;
and a classifier reading only the first eleven characters of the
message tells extraction failures, setup-tool failures and
provenance-write failures apart. -/
theorem setup_runner_output_and_messages (r : Solc) (w : World) (a : String) (layer : Layer)
    (hm : layer.metadata = none) :
    (∀ ex ∈ runExecutions (r.Contribute w a layer).trace, ex.stdout = ex.stderr)
    ∧ (∀ e, w.extractResult = .error e →
        classifyError (errMsg (r.Contribute w a layer).result) = "ExtractionFailed")
    ∧ (∀ e, w.extractResult = .ok () → w.setenvResult = .ok () →
        (w.exec (npmInstallExecution layer)).result = .error e →
        (r.Contribute w a layer).result = .error ("error executing \x27" ++
            (npmInstallExecution layer).command ++ "\x27:\n Combined Output: " ++
            (w.exec (npmInstallExecution layer)).output ++ ": \n" ++ e)
        ∧ List.IsInfix (w.exec (npmInstallExecution layer)).output.data
            (errMsg (r.Contribute w a layer).result).data
        ∧ List.IsInfix (npmInstallExecution layer).command.data
            (errMsg (r.Contribute w a layer).result).data
        ∧ classifyError (errMsg (r.Contribute w a layer).result) = "SetupActionFailed")
    ∧ (∀ e, w.extractResult = .ok () → w.setenvResult = .ok () →
        (w.exec (npmInstallExecution layer)).result = .ok () →
        (w.exec solcjsVersionExecution).result = .error e →
        (r.Contribute w a layer).result =
          .error ("error executing \x27solcjs --version\x27:\n Combined Output: " ++
            (w.exec solcjsVersionExecution).output ++ ": \n" ++ e)
        ∧ List.IsInfix (w.exec solcjsVersionExecution).output.data
            (errMsg (r.Contribute w a layer).result).data
        ∧ List.IsInfix ("solcjs" : String).data
            (errMsg (r.Contribute w a layer).result).data
        ∧ classifyError (errMsg (r.Contribute w a layer).result) = "SetupActionFailed")
    ∧ (∀ e, w.extractResult = .ok () → w.setenvResult = .ok () →
        (w.exec (npmInstallExecution layer)).result = .ok () →
        (w.exec solcjsVersionExecution).result = .ok () →
        w.sbomWriteResult = .error e →
        classifyError (errMsg (r.Contribute w a layer).result) = "ProvenanceWriteFailed") := by
  refine ⟨?_, ?_, ?_, ?_, ?_⟩
  · intro ex hex
    rcases hE : w.extractResult with eE | uE
    · rw [contribute_none_error r w a layer hm _
          (by rw [solcRebuild_extract_error w a layer eE hE]),
        solcRebuild_extract_error w a layer eE hE] at hex
      simp [runExecutions] at hex
    · cases uE
      rcases hS : w.setenvResult with eS | uS
      · rw [contribute_none_error r w a layer hm _
            (by rw [solcRebuild_setenv_error w a layer eS hE hS]),
          solcRebuild_setenv_error w a layer eS hE hS] at hex
        simp [runExecutions] at hex
      · cases uS
        rcases hN : (w.exec (npmInstallExecution layer)).result with eN | uN
        · rw [contribute_none_error r w a layer hm _
              (by rw [solcRebuild_npm_error w a layer eN hE hS hN]),
            solcRebuild_npm_error w a layer eN hE hS hN] at hex
          simp [runExecutions] at hex
          subst hex
          rfl
        · cases uN
          rcases hV : (w.exec solcjsVersionExecution).result with eV | uV
          · rw [contribute_none_error r w a layer hm _
                (by rw [solcRebuild_solcjs_error w a layer eV hE hS hN hV]),
              solcRebuild_solcjs_error w a layer eV hE hS hN hV] at hex
            simp [runExecutions] at hex
            rcases hex with h | h <;> subst h <;> rfl
          · cases uV
            rcases hB : w.sbomWriteResult with eB | uB
            · rw [contribute_none_error r w a layer hm _
                  (by rw [solcRebuild_sbom_error w a layer eB hE hS hN hV hB]),
                solcRebuild_sbom_error w a layer eB hE hS hN hV hB] at hex
              simp [runExecutions] at hex
              rcases hex with h | h <;> subst h <;> rfl
            · cases uB
              rw [contribute_none_ok r w a layer hm layer
                  (by rw [solcRebuild_all_ok w a layer hE hS hN hV hB]),
                solcRebuild_all_ok w a layer hE hS hN hV hB] at hex
              simp [runExecutions] at hex
              rcases hex with h | h <;> subst h <;> rfl
  · intro e hE
    rw [contribute_none_error r w a layer hm _
        (by rw [solcRebuild_extract_error w a layer e hE]),
      solcRebuild_extract_error w a layer e hE]
    exact classifyError_expand a e
  · intro e hE hS hN
    rw [contribute_none_error r w a layer hm _
        (by rw [solcRebuild_npm_error w a layer e hE hS hN]),
      solcRebuild_npm_error w a layer e hE hS hN]
    exact ⟨rfl,
      (exec_message_props (npmInstallExecution layer).command
        (w.exec (npmInstallExecution layer)).output e).1,
      (exec_message_props (npmInstallExecution layer).command
        (w.exec (npmInstallExecution layer)).output e).2,
      classifyError_exec _ _ _⟩
  · intro e hE hS hN hV
    rw [contribute_none_error r w a layer hm _
        (by rw [solcRebuild_solcjs_error w a layer e hE hS hN hV]),
      solcRebuild_solcjs_error w a layer e hE hS hN hV]
    exact ⟨rfl,
      (solcjs_message_props (w.exec solcjsVersionExecution).output e).1,
      (solcjs_message_props (w.exec solcjsVersionExecution).output e).2,
      classifyError_exec_solcjs _ _⟩
  · intro e hE hS hN hV hB
    rw [contribute_none_error r w a layer hm _
        (by rw [solcRebuild_sbom_error w a layer e hE hS hN hV hB]),
      solcRebuild_sbom_error w a layer e hE hS hN hV hB]
    exact classifyError_sbom e

/-- Witness for C7: in a run where npm install fails, every recorded
invocation has its two streams on one buffer and the failure message
classifies as a setup-action failure. -/
theorem setup_runner_output_and_messages_witness :
    (∀ ex ∈ runExecutions (exampleSolc.Contribute wNpmFail "node.tar.xz" emptyLayer).trace,
      ex.stdout = ex.stderr)
    ∧ classifyError (errMsg (exampleSolc.Contribute wNpmFail "node.tar.xz" emptyLayer).result) =
        "SetupActionFailed" :=
  have h := setup_runner_output_and_messages exampleSolc wNpmFail "node.tar.xz" emptyLayer rfl
  ⟨h.1, (h.2.2.1 "exit status 1" rfl rfl (by decide)).2.2.2⟩
